import Mathlib

/-!
Verification development for the squad scoring and automatic-substitution
simulation engine of the `fplstats` repository.

The embedding translates, from `src/fplstats/enums.py`, `src/fplstats/models.py`
and `src/fplstats/analyzers.py`:
  * the `Position` enum;
  * the pydantic models `PlayerHistory`, `Player` and `Pick` (fields the engine
    never reads — display names, season aggregates, fixture metadata,
    timestamps — are omitted from the structures; the engine only reads
    `round`, the fourteen combined statistics, `id`, `element_type`, `history`,
    and the pick flags);
  * the aggregator `get_player_gameweek_results` /
    `get_combined_gameweek_result_for_player` (the Python dict access
    `self.players[str(player_id)]`, which raises `KeyError` on a missing key,
    is modelled with an `Option`-valued store);
  * the per-gameweek body of `get_gw1_picks_standings`
    (`analyzers.py` lines 779-930): the starter loop, the captain/vice-captain
    extra-points block, the goalkeeper bench stage and the outfield bench
    `while` loop.

Machine integers are Python `int`s, modelled as `Int` (no overflow).
-/

namespace FplStats

/-- The `Position` enum of `src/fplstats/enums.py`. -/
inductive Position where
  | GOALKEEPER
  | DEFENDER
  | MIDFIELDER
  | ATTACKER
  | MANAGER
deriving DecidableEq, Repr

/-- The `Chip` enum of `src/fplstats/enums.py` (only its existence matters to
the engine modelled here; `get_gw1_picks_standings` never consults chips). -/
inductive Chip where
  | TRIPLE_CAPTAIN
  | BENCH_BOOST
  | FREE_HIT
  | WILDCARD
  | ASSMAN
deriving DecidableEq, Repr

/-- One fixture record for one player (`PlayerHistory` in
`src/fplstats/models.py`); the engine reads `round` and the fourteen
statistics that `PlayerGameweekCombinedResult` also carries. -/
structure PlayerHistory where
  round : Int
  total_points : Int
  minutes : Int
  goals_scored : Int
  assists : Int
  clean_sheets : Int
  goals_conceded : Int
  own_goals : Int
  penalties_saved : Int
  penalties_missed : Int
  yellow_cards : Int
  red_cards : Int
  saves : Int
  bonus : Int
  bps : Int
deriving DecidableEq, Repr

/-- `PlayerGameweekCombinedResult` of `src/fplstats/analyzers.py`:
every field defaults to `0`, so `{}` is the zero-valued "did not play"
result. -/
structure PlayerGameweekCombinedResult where
  total_points : Int := 0
  minutes : Int := 0
  goals_scored : Int := 0
  assists : Int := 0
  clean_sheets : Int := 0
  goals_conceded : Int := 0
  own_goals : Int := 0
  penalties_saved : Int := 0
  penalties_missed : Int := 0
  yellow_cards : Int := 0
  red_cards : Int := 0
  saves : Int := 0
  bonus : Int := 0
  bps : Int := 0
deriving DecidableEq, Repr

/-- The body of the combination loop of
`get_combined_gameweek_result_for_player` (`analyzers.py` lines 247-251):
field-wise addition of one fixture record into the running combined result,
over exactly the fields of `PlayerGameweekCombinedResult`. -/
def addResult (c : PlayerGameweekCombinedResult) (h : PlayerHistory) :
    PlayerGameweekCombinedResult where
  total_points := c.total_points + h.total_points
  minutes := c.minutes + h.minutes
  goals_scored := c.goals_scored + h.goals_scored
  assists := c.assists + h.assists
  clean_sheets := c.clean_sheets + h.clean_sheets
  goals_conceded := c.goals_conceded + h.goals_conceded
  own_goals := c.own_goals + h.own_goals
  penalties_saved := c.penalties_saved + h.penalties_saved
  penalties_missed := c.penalties_missed + h.penalties_missed
  yellow_cards := c.yellow_cards + h.yellow_cards
  red_cards := c.red_cards + h.red_cards
  saves := c.saves + h.saves
  bonus := c.bonus + h.bonus
  bps := c.bps + h.bps

/-- `Player` of `src/fplstats/models.py`, restricted to the fields the engine
reads: `id`, `element_type` and `history`. -/
structure Player where
  id : String
  element_type : Position
  history : List PlayerHistory
deriving DecidableEq, Repr

/-- `PlayerDict = Dict[str, Player]` of `src/fplstats/models.py`; a Python
dict access `players[k]` raises `KeyError` when the key is absent, modelled by
the `none` case of the lookup. -/
def PlayerDict := String → Option Player

/-- `get_player_gameweek_results` (`analyzers.py` lines 227-236):
`self.players[str(player_id)]` followed by a filter of the player's history on
the gameweek number. `none` models the `KeyError` raised on an unknown
player id. -/
def get_player_gameweek_results (players : PlayerDict) (player_id : String)
    (gameweek_number : Int) : Option (List PlayerHistory) :=
  (players player_id).map fun p =>
    p.history.filter fun x => x.round == gameweek_number

/-- `get_combined_gameweek_result_for_player` (`analyzers.py` lines 238-261):
starts from the all-zero `PlayerGameweekCombinedResult()` and folds every
fixture record of the gameweek into it field-wise. -/
def get_combined_gameweek_result_for_player (players : PlayerDict)
    (player_id : String) (gameweek_number : Int) :
    Option PlayerGameweekCombinedResult :=
  (get_player_gameweek_results players player_id gameweek_number).map
    fun rs => rs.foldl addResult {}

/-- `Pick` of `src/fplstats/models.py`. -/
structure Pick where
  element : String
  position : Int
  multiplier : Int
  is_captain : Bool
  is_vice_captain : Bool
deriving DecidableEq, Repr

/-- Modelled from the spec: `src/fplstats/constants.py` (imported by
`analyzers.py` for `MIN_DEFS`) is not under `src/`; the spec gives the
formation minimum of 3 defenders in a valid XI. -/
def MIN_DEFS : Nat := 3

/-- Modelled from the spec: `src/fplstats/constants.py` is not under `src/`;
the spec gives the formation minimum of 2 midfielders in a valid XI. -/
def MIN_MIDS : Nat := 2

/-- Modelled from the spec: `src/fplstats/constants.py` is not under `src/`;
the spec gives the formation minimum of 1 forward in a valid XI. -/
def MIN_FWDS : Nat := 1

/-- For a fixed gameweek, the per-gameweek body of `get_gw1_picks_standings`
reads the data store only through `self.players[pick.element].element_type`
and `self.get_combined_gameweek_result_for_player(id, gw_number)`; both are
total here, matching the code's unguarded dict indexing on pick elements
(the error path of the dict itself is modelled above on `PlayerDict`).
Pools hold each appended player's `id`. -/
structure Env where
  pos : String → Position
  res : String → PlayerGameweekCombinedResult

/-- The local state built by the starting-pick loop of
`get_gw1_picks_standings` (`analyzers.py` lines 785-824): running gameweek
total, captured captain and vice-captain minutes/points, and the
position-grouped "gw squad" (`gk`, `defs`, `mids`, `fwds`). -/
structure GwState where
  total_gw_points : Int := 0
  captain_mins : Int := 0
  captain_points : Int := 0
  vc_mins : Int := 0
  vc_points : Int := 0
  gk : Option String := none
  defs : List String := []
  mids : List String := []
  fwds : List String := []
deriving DecidableEq, Repr

/-- One iteration of the starting-pick loop (`analyzers.py` lines 795-824):
capture captain (`if`) or else vice-captain (`elif`) minutes and points;
then, if the player's combined minutes are non-zero (Python truthiness),
file the player under goalkeeper/defender/midfielder/else-forward and add the
player's combined total points to the gameweek total. -/
def processStartingPick (env : Env) (st : GwState) (pick : Pick) : GwState :=
  let r := env.res pick.element
  let st :=
    if pick.is_captain then
      { st with captain_mins := r.minutes, captain_points := r.total_points }
    else if pick.is_vice_captain then
      { st with vc_mins := r.minutes, vc_points := r.total_points }
    else st
  if r.minutes ≠ 0 then
    let st :=
      match env.pos pick.element with
      | Position.GOALKEEPER => { st with gk := some pick.element }
      | Position.DEFENDER => { st with defs := st.defs ++ [pick.element] }
      | Position.MIDFIELDER => { st with mids := st.mids ++ [pick.element] }
      | _ => { st with fwds := st.fwds ++ [pick.element] }
    { st with total_gw_points := st.total_gw_points + r.total_points }
  else st

/-- The goalkeeper bench stage (`analyzers.py` lines 834-848): when no
starting goalkeeper played, the backup goalkeeper (bench slot 1) is promoted
iff the backup's combined minutes are non-zero; returns the resolved
goalkeeper slot and the amount added to `total_auto_sub_points`. The code
adds the promoted backup's points to `total_auto_sub_points` (and to the
per-player display tally) but NOT to `total_gw_points`. -/
def gkStage (env : Env) (gk : Option String) (gk_bench_pick : Pick) :
    Option String × Int :=
  match gk with
  | some g => (some g, 0)
  | none =>
    let r := env.res gk_bench_pick.element
    if r.minutes ≠ 0 then (some gk_bench_pick.element, r.total_points)
    else (none, 0)

/-- The state mutated by the outfield bench `while` loop
(`analyzers.py` lines 852-927): the three positional pools and the two
running totals the loop adds to. -/
structure OutfieldState where
  defs : List String
  mids : List String
  fwds : List String
  total_gw_points : Int
  total_auto_sub_points : Int
deriving DecidableEq, Repr

/-- `len(outfield_players)` for `outfield_players = defs + mids + fwds`
(`analyzers.py` line 859). -/
def poolSize (st : OutfieldState) : Nat :=
  st.defs.length + st.mids.length + st.fwds.length

/-- `should_be_force_subbed_in` (`analyzers.py` lines 865-868): true when
there are open pool spots for ALL the remaining bench players,
`len(outfield_players) + len(gw_bench_picks) <= 10`. -/
def shouldBeForceSubbedIn (st : OutfieldState) (queueLen : Nat) : Bool :=
  poolSize st + queueLen ≤ 10

/-- The decision taken for one bench candidate by one iteration of the inner
`for` loop (`analyzers.py` lines 853-927): clear the whole queue, remove the
candidate, promote the candidate (with the updated state), or fall through to
the next candidate. -/
inductive BenchAction where
  | clear
  | remove
  | promote (st : OutfieldState)
  | skip
deriving DecidableEq, Repr

/-- One iteration of the inner `for` loop of the outfield stage
(`analyzers.py` lines 853-927) for the candidate `pick`, where `queueLen` is
`len(gw_bench_picks)` and `isLast` says whether `i == len(gw_bench_picks)-1`:
if the pool already holds 10 the queue is cleared; a candidate with zero
combined minutes is removed; a played candidate is promoted when its
position branch fires (note the code tests `Position.MIDFIELDER` twice — the
third branch, which would append to `fwds`, repeats the midfielder test of
the second and is therefore unreachable, exactly as in lines 892 and 900);
otherwise the candidate is removed when last in the queue, else skipped. -/
def benchStep (env : Env) (st : OutfieldState) (queueLen : Nat)
    (isLast : Bool) (pick : Pick) : BenchAction :=
  if poolSize st = 10 then BenchAction.clear
  else
    let forced := shouldBeForceSubbedIn st queueLen
    let r := env.res pick.element
    if r.minutes = 0 then BenchAction.remove
    else
      let bench_player_pos := env.pos pick.element
      let promoted : Option OutfieldState :=
        if bench_player_pos = Position.DEFENDER then
          if st.defs.length < MIN_DEFS ∨
              (MIN_MIDS ≤ st.mids.length ∧ MIN_FWDS ≤ st.fwds.length) ∨
              forced = true then
            some { st with
              defs := st.defs ++ [pick.element]
              total_gw_points := st.total_gw_points + r.total_points
              total_auto_sub_points :=
                st.total_auto_sub_points + r.total_points }
          else none
        else if bench_player_pos = Position.MIDFIELDER then
          if st.mids.length < MIN_MIDS ∨
              (MIN_DEFS ≤ st.defs.length ∧ MIN_FWDS ≤ st.fwds.length) ∨
              forced = true then
            some { st with
              mids := st.mids ++ [pick.element]
              total_gw_points := st.total_gw_points + r.total_points
              total_auto_sub_points :=
                st.total_auto_sub_points + r.total_points }
          else none
        else if bench_player_pos = Position.MIDFIELDER then
          if st.fwds.length < MIN_FWDS ∨
              (MIN_DEFS ≤ st.defs.length ∧ MIN_MIDS ≤ st.mids.length) ∨
              forced = true then
            some { st with
              fwds := st.fwds ++ [pick.element]
              total_gw_points := st.total_gw_points + r.total_points
              total_auto_sub_points :=
                st.total_auto_sub_points + r.total_points }
          else none
        else none
      match promoted with
      | some st' => BenchAction.promote st'
      | none =>
        if isLast then BenchAction.remove else BenchAction.skip

/-- One pass of the inner `for` loop over the queue `acc ++ rest`, where
`acc` holds the candidates already fallen through this pass: on `clear` the
queue becomes empty, on `remove` and `promote` the current candidate is
deleted and the pass breaks (the outer `while` then rescans from the front),
on `skip` the pass advances. A full pass over a non-empty queue always
breaks, because the last candidate is removed when not promoted. -/
def scanPass (env : Env) (st : OutfieldState) (acc : List Pick) :
    List Pick → OutfieldState × List Pick
  | [] => (st, acc)
  | pick :: rest =>
    match benchStep env st (acc.length + 1 + rest.length) rest.isEmpty pick with
    | BenchAction.clear => (st, [])
    | BenchAction.remove => (st, acc ++ rest)
    | BenchAction.promote st' => (st', acc ++ rest)
    | BenchAction.skip => scanPass env st (acc ++ [pick]) rest

/-- Fuel-indexed form of the outer `while gw_bench_picks:` loop of the
outfield stage (`analyzers.py` lines 852-927): rescan the queue from the
front until it is empty. One unit of fuel per pass suffices because every
pass over a non-empty queue clears it or removes exactly one candidate
(`scanPass_shrinks` below); `runOutfieldGo_irrel` below shows the result is
the same for every fuel at least the queue length, so this computes exactly
the `while` loop's limit. -/
def runOutfieldGo (env : Env) : Nat → OutfieldState → List Pick →
    OutfieldState
  | _, st, [] => st
  | 0, st, _ :: _ => st
  | Nat.succ n, st, pick :: rest =>
    let p := scanPass env st [] (pick :: rest)
    runOutfieldGo env n p.1 p.2

/-- The outer `while gw_bench_picks:` loop of the outfield stage
(`analyzers.py` lines 852-927), run with fuel equal to the initial queue
length. -/
def runOutfield (env : Env) (st : OutfieldState) (queue : List Pick) :
    OutfieldState :=
  runOutfieldGo env queue.length st queue

/-- The state of the per-gameweek local variables after the starting-pick
loop (`analyzers.py` lines 785-824). -/
def gwStarterState (env : Env) (starting : List Pick) : GwState :=
  starting.foldl (processStartingPick env) {}

/-- The `OutfieldState` the outfield bench loop starts from: the
position-grouped starting outfield players who played, the gameweek total
after the captain/vice-captain extra (`analyzers.py` lines 826-832), and the
auto-sub points contributed by the goalkeeper stage (which, in the code, are
never added to `total_gw_points`). -/
def gwOutfieldInit (env : Env) (starting : List Pick) (gkBench : Pick) :
    OutfieldState :=
  let st := gwStarterState env starting
  let captain_added := if st.captain_mins ≠ 0 then st.captain_points else 0
  let vc_added :=
    if st.captain_mins = 0 ∧ st.vc_mins ≠ 0 then st.vc_points else 0
  { defs := st.defs
    mids := st.mids
    fwds := st.fwds
    total_gw_points := st.total_gw_points + captain_added + vc_added
    total_auto_sub_points := (gkStage env st.gk gkBench).2 }

/-- The Evaluator's per-gameweek outcome, read off the local variables of the
per-gameweek body of `get_gw1_picks_standings` after the outfield stage: the
gameweek total (`total_gw_points`), the amounts this gameweek adds to the
running `total_captain_points`, `total_vice_captain_points` and
`total_auto_sub_points` counters, and the resolved scoring squad. -/
structure GwOutcome where
  total_gw_points : Int
  captain_added : Int
  vc_added : Int
  auto_sub_added : Int
  gk : Option String
  defs : List String
  mids : List String
  fwds : List String
deriving DecidableEq, Repr

/-- The per-gameweek body of `get_gw1_picks_standings`
(`analyzers.py` lines 785-930) for one gameweek: fold the 11 starting picks,
apply the captain/vice-captain extra (`if captain_mins: ... elif vc_mins:`,
lines 826-832), run the goalkeeper bench stage on bench slot 1 (whose
auto-sub points are NOT added to the gameweek total, lines 834-848), then run
the outfield `while` loop over the remaining 3 bench picks. The code splits
`gw1_all_picks` into the first 11 (`starting`) and the bench, whose head is
the backup goalkeeper (`gkBench`) and whose tail (`benchOutfield`) feeds the
outfield stage after `del gw_bench_picks[0]`. -/
def evalGameweek (env : Env) (starting : List Pick) (gkBench : Pick)
    (benchOutfield : List Pick) : GwOutcome :=
  let st := gwStarterState env starting
  let captain_added := if st.captain_mins ≠ 0 then st.captain_points else 0
  let vc_added :=
    if st.captain_mins = 0 ∧ st.vc_mins ≠ 0 then st.vc_points else 0
  let gkRes := gkStage env st.gk gkBench
  let fin := runOutfield env (gwOutfieldInit env starting gkBench)
    benchOutfield
  { total_gw_points := fin.total_gw_points
    captain_added := captain_added
    vc_added := vc_added
    auto_sub_added := fin.total_auto_sub_points
    gk := gkRes.1
    defs := fin.defs
    mids := fin.mids
    fwds := fin.fwds }

/-- Sum of per-player combined total points over a final scoring set, the
spec's conservation vocabulary: the resolved goalkeeper slot plus every
player in the outfield pools. -/
def scoringSum (env : Env) (o : GwOutcome) : Int :=
  (match o.gk with
   | some g => (env.res g).total_points
   | none => 0) +
  ((o.defs ++ o.mids ++ o.fwds).map fun i => (env.res i).total_points).sum

/-- Two outfield states with identical positional pools (they may differ in
the running totals); the bench loop's control decisions read only the
pools. -/
def SamePools (a b : OutfieldState) : Prop :=
  a.defs = b.defs ∧ a.mids = b.mids ∧ a.fwds = b.fwds

/-- Concrete-input helper: a pick with the given player id and
captain/vice-captain flags (squad slot index 0, multiplier 1). -/
def mkPick (e : String) (c v : Bool) : Pick :=
  { element := e, position := 0, multiplier := 1, is_captain := c
    is_vice_captain := v }

/-- Concrete-input helper: a combined-result table from
(id, minutes, total points) rows; ids not listed get the zero result. -/
def simpleRes (l : List (String × Int × Int)) :
    String → PlayerGameweekCombinedResult := fun id =>
  match l.find? fun x => x.1 = id with
  | some x => { minutes := x.2.1, total_points := x.2.2 }
  | none => {}

/-- Concrete-input helper: a position table; ids not listed are (non-scoring)
managers. -/
def simplePos (l : List (String × Position)) : String → Position := fun id =>
  ((l.find? fun x => x.1 = id).map fun x => x.2).getD Position.MANAGER

/-- Position table of the concrete 15-pick squad used by several concrete
evaluations: a standard 3-3-4 starting XI (`s1`..`s11`) and a bench of
backup goalkeeper `b1`, defender `b2`, midfielder `b3`, attacker `b4`. -/
def posSquad : String → Position := simplePos
  [("s1", Position.GOALKEEPER), ("s2", Position.DEFENDER),
   ("s3", Position.DEFENDER), ("s4", Position.DEFENDER),
   ("s5", Position.MIDFIELDER), ("s6", Position.MIDFIELDER),
   ("s7", Position.MIDFIELDER), ("s8", Position.ATTACKER),
   ("s9", Position.ATTACKER), ("s10", Position.ATTACKER),
   ("s11", Position.ATTACKER), ("b1", Position.GOALKEEPER),
   ("b2", Position.DEFENDER), ("b3", Position.MIDFIELDER),
   ("b4", Position.ATTACKER)]

/-- Concrete starting picks: `s2` is captain, `s3` vice-captain. -/
def startersA : List Pick :=
  [mkPick "s1" false false, mkPick "s2" true false, mkPick "s3" false true,
   mkPick "s4" false false, mkPick "s5" false false, mkPick "s6" false false,
   mkPick "s7" false false, mkPick "s8" false false, mkPick "s9" false false,
   mkPick "s10" false false, mkPick "s11" false false]

/-- Concrete outfield bench picks `b2`, `b3`, `b4` with no flags. -/
def benchOutfieldA : List Pick :=
  [mkPick "b2" false false, mkPick "b3" false false, mkPick "b4" false false]

/-- Concrete environment: the starting goalkeeper `s1` did not play, all ten
outfield starters played for 1 point each, and the backup goalkeeper `b1`
played 45 minutes for 5 points; the outfield bench did not play. -/
def envC1 : Env :=
  ⟨posSquad,
   simpleRes
     [("s2", 90, 1), ("s3", 90, 1), ("s4", 90, 1), ("s5", 90, 1),
      ("s6", 90, 1), ("s7", 90, 1), ("s8", 90, 1), ("s9", 90, 1),
      ("s10", 90, 1), ("s11", 90, 1), ("b1", 45, 5)]⟩

/-- Concrete environment: starting goalkeeper `s1` did not play, six outfield
starters played (totalling 16 points), backup goalkeeper `b1` played for 7
points; the outfield bench did not play. -/
def envC2 : Env :=
  ⟨posSquad,
   simpleRes
     [("s2", 90, 2), ("s3", 90, 2), ("s4", 90, 2), ("s5", 90, 3),
      ("s6", 90, 3), ("s8", 90, 4), ("b1", 45, 7)]⟩

/-- Concrete outfield-stage state with three defenders, two midfielders and
no forward in the pool (pool size 5). -/
def stC3 : OutfieldState := ⟨["d1", "d2", "d3"], ["m1", "m2"], [], 0, 0⟩

/-- Concrete environment for a bench forward `f1` who played 90 minutes for
2 points. -/
def envC3 : Env :=
  ⟨simplePos [("f1", Position.ATTACKER)], simpleRes [("f1", 90, 2)]⟩

/-- Concrete environment for a bench defender `d9` who played 90 minutes for
3 points. -/
def envC3w : Env :=
  ⟨simplePos [("d9", Position.DEFENDER)], simpleRes [("d9", 90, 3)]⟩

/-- Concrete outfield-stage state with two defenders, two midfielders and one
forward in the pool (pool size 5, defender count below `MIN_DEFS`). -/
def stC3w : OutfieldState := ⟨["d1", "d2"], ["m1", "m2"], ["f1"], 0, 0⟩

/-- Concrete player store with no players at all. -/
def emptyPlayerStore : PlayerDict := fun _ => none

/-- Concrete player store holding the single player `p1` with an empty
fixture history. -/
def storeC5 : PlayerDict := fun id =>
  if id = "p1" then some { id := "p1", element_type := Position.GOALKEEPER
                           history := [] }
  else none

/-- Concrete environment: captain `s2` did not play; starters `s1`, `s3`,
`s4`, `s5`, `s6`, `s8` played for 1 point each; the bench defender `b2` — the
vice-captain in the C6 squad — played 90 minutes for 5 points. -/
def envC6 : Env :=
  ⟨posSquad,
   simpleRes
     [("s1", 90, 1), ("s3", 90, 1), ("s4", 90, 1), ("s5", 90, 1),
      ("s6", 90, 1), ("s8", 90, 1), ("b2", 90, 5)]⟩

/-- Concrete starting picks for C6: `s2` is captain and NO starter is
vice-captain (the vice-captaincy sits on bench pick `b2`). -/
def startersC6 : List Pick :=
  [mkPick "s1" false false, mkPick "s2" true false, mkPick "s3" false false,
   mkPick "s4" false false, mkPick "s5" false false, mkPick "s6" false false,
   mkPick "s7" false false, mkPick "s8" false false, mkPick "s9" false false,
   mkPick "s10" false false, mkPick "s11" false false]

/-- Concrete outfield bench for C6: the vice-captain flag sits on `b2`. -/
def benchOutfieldC6 : List Pick :=
  [mkPick "b2" false true, mkPick "b3" false false, mkPick "b4" false false]

/-- Concrete decomposition of `startersA` around the captain: the picks
before the captain. -/
def c6as : List Pick := [mkPick "s1" false false]

/-- Concrete decomposition of `startersA` around the captain: the captain
pick `s2`. -/
def c6c : Pick := mkPick "s2" true false

/-- Concrete decomposition of `startersA` around the captain: the picks
after the captain (the vice-captain `s3` among them). -/
def c6bs : List Pick :=
  [mkPick "s3" false true, mkPick "s4" false false, mkPick "s5" false false,
   mkPick "s6" false false, mkPick "s7" false false, mkPick "s8" false false,
   mkPick "s9" false false, mkPick "s10" false false,
   mkPick "s11" false false]

/-- Concrete environment for C7: captain `s2` played 90 minutes for 4 points;
goalkeeper `s1` played for 1 point. -/
def envC7 : Env :=
  ⟨posSquad, simpleRes [("s1", 90, 1), ("s2", 90, 4)]⟩

/-- Concrete captain pick for C7 with declared multiplier 3
(triple captain). -/
def c7cap : Pick :=
  { element := "s2", position := 2, multiplier := 3, is_captain := true
    is_vice_captain := false }

/-- Concrete starting picks for C7: the captain pick `s2` carries declared
multiplier 3 (triple captain). -/
def startersC7 : List Pick :=
  [mkPick "s1" false false, c7cap,
   mkPick "s3" false true, mkPick "s4" false false, mkPick "s5" false false,
   mkPick "s6" false false, mkPick "s7" false false, mkPick "s8" false false,
   mkPick "s9" false false, mkPick "s10" false false,
   mkPick "s11" false false]

/-- Concrete environment for C9, first run: backup goalkeeper `b1` did not
play; starters `s2`..`s8` played. -/
def envC9a : Env :=
  ⟨posSquad,
   simpleRes
     [("s2", 90, 2), ("s3", 90, 2), ("s4", 90, 2), ("s5", 90, 3),
      ("s6", 90, 3), ("s7", 90, 1), ("s8", 90, 4), ("b3", 90, 6)]⟩

/-- Concrete environment for C9, second run: identical to `envC9a` except
that the backup goalkeeper `b1` played 90 minutes for 9 points (so the
goalkeeper stage promotes `b1` here and not in the first run). -/
def envC9b : Env :=
  ⟨posSquad,
   fun id =>
     if id = "b1" then { minutes := 90, total_points := 9 }
     else envC9a.res id⟩

/-- When the pool already holds 10 players the bench iteration clears the
queue regardless of the candidate. -/
theorem benchStep_pool10 (env : Env) (st : OutfieldState) (n : Nat)
    (isLast : Bool) (pick : Pick) (h : poolSize st = 10) :
    benchStep env st n isLast pick = BenchAction.clear := by
  simp [benchStep, h]

/-- The last candidate of a pass is never merely skipped: it is cleared,
removed or promoted. -/
theorem benchStep_last_ne_skip (env : Env) (st : OutfieldState) (n : Nat)
    (pick : Pick) : benchStep env st n true pick ≠ BenchAction.skip := by
  simp only [benchStep]
  split_ifs <;> simp

/-- A promotion only happens with a non-full pool and grows the pool by
exactly one. -/
theorem benchStep_promote_pool (env : Env) (st st' : OutfieldState) (n : Nat)
    (isLast : Bool) (pick : Pick)
    (hb : benchStep env st n isLast pick = BenchAction.promote st') :
    poolSize st ≠ 10 ∧ poolSize st' = poolSize st + 1 := by
  simp only [benchStep] at hb
  split_ifs at hb <;> simp_all <;>
    (subst hb; simp only [poolSize, List.length_append, List.length_cons,
      List.length_nil]; omega)

/-- One pass of the inner loop over a non-empty queue either clears the queue
or shortens it by exactly one. -/
theorem scanPass_shrinks (env : Env) (st : OutfieldState) :
    ∀ (q acc : List Pick), q ≠ [] →
      (scanPass env st acc q).2 = [] ∨
      (scanPass env st acc q).2.length + 1 = acc.length + q.length := by
  intro q
  induction q with
  | nil => intro acc h; exact absurd rfl h
  | cons pick rest ih =>
    intro acc _
    rw [scanPass]
    split
    · left; rfl
    · right; simp; omega
    · right; simp; omega
    · next heq =>
      cases rest with
      | nil => exact absurd heq (benchStep_last_ne_skip env st _ pick)
      | cons p2 r2 =>
        rcases ih (acc ++ [pick]) (by simp) with h | h
        · left; exact h
        · right; simp at h ⊢; omega

/-- One pass over a non-empty queue strictly shortens the queue. -/
theorem scanPass_lt (env : Env) (st : OutfieldState) (q : List Pick)
    (hq : q ≠ []) : (scanPass env st [] q).2.length < q.length := by
  rcases scanPass_shrinks env st q [] hq with h | h
  · rw [h]
    simpa [List.length_pos] using hq
  · simp at h
    omega

/-- A pass never grows the pool beyond 10. -/
theorem scanPass_pool_le (env : Env) :
    ∀ (q acc : List Pick) (st : OutfieldState), poolSize st ≤ 10 →
      poolSize (scanPass env st acc q).1 ≤ 10 := by
  intro q
  induction q with
  | nil => intro acc st h; exact h
  | cons pick rest ih =>
    intro acc st h
    rw [scanPass]
    split
    · exact h
    · exact h
    · next st' heq =>
      have hp := benchStep_promote_pool env st st' _ _ _ heq
      simp only
      omega
    · exact ih (acc ++ [pick]) st h

/-- With a full pool, a pass over a non-empty queue leaves the state
untouched and clears the queue. -/
theorem scanPass_pool10 (env : Env) (st : OutfieldState) (acc q : List Pick)
    (h : poolSize st = 10) (hq : q ≠ []) : scanPass env st acc q = (st, []) := by
  cases q with
  | nil => exact absurd rfl hq
  | cons pick rest => rw [scanPass, benchStep_pool10 env st _ _ _ h]

/-- The fuel bound is irrelevant once it covers the queue length: every pass
removes at least one candidate, so `queue.length` passes always reach the
empty queue. -/
theorem runOutfieldGo_irrel (env : Env) :
    ∀ (m n : Nat) (st : OutfieldState) (q : List Pick),
      q.length ≤ m → q.length ≤ n →
      runOutfieldGo env m st q = runOutfieldGo env n st q := by
  intro m
  induction m with
  | zero =>
    intro n st q hm _
    have : q = [] := List.eq_nil_of_length_eq_zero (Nat.le_zero.1 hm)
    subst this
    cases n <;> rfl
  | succ m ih =>
    intro n st q hm hn
    cases q with
    | nil => cases n <;> rfl
    | cons pick rest =>
      cases n with
      | zero => simp at hn
      | succ n =>
        rw [runOutfieldGo, runOutfieldGo]
        have hlt := scanPass_lt env st (pick :: rest) (by simp)
        simp only [List.length_cons] at hlt hm hn
        exact ih n _ _ (by omega) (by omega)

/-- The outer loop on the empty queue returns the state unchanged. -/
theorem runOutfield_nil (env : Env) (st : OutfieldState) :
    runOutfield env st [] = st := rfl

/-- Unfolding of the outer loop on a non-empty queue: one pass, then
rescan. -/
theorem runOutfield_step (env : Env) (st : OutfieldState) (q : List Pick)
    (hq : q ≠ []) :
    runOutfield env st q =
      runOutfield env (scanPass env st [] q).1 (scanPass env st [] q).2 := by
  cases q with
  | nil => exact absurd rfl hq
  | cons pick rest =>
    have hlt := scanPass_lt env st (pick :: rest) (by simp)
    simp only [List.length_cons] at hlt
    show runOutfieldGo env (pick :: rest).length st (pick :: rest) = _
    simp only [List.length_cons]
    rw [runOutfieldGo]
    exact runOutfieldGo_irrel env rest.length _ _ _ (by omega) le_rfl

/-- Fuel-indexed pool bound for the outer loop. -/
theorem runOutfield_pool_le_aux (env : Env) :
    ∀ (n : Nat) (q : List Pick) (st : OutfieldState), q.length ≤ n →
      poolSize st ≤ 10 → poolSize (runOutfield env st q) ≤ 10 := by
  intro n
  induction n with
  | zero =>
    intro q st hlen h
    have : q = [] := List.eq_nil_of_length_eq_zero (Nat.le_zero.1 hlen)
    rw [this, runOutfield_nil]
    exact h
  | succ n ih =>
    intro q st hlen h
    by_cases hq : q = []
    · rw [hq, runOutfield_nil]; exact h
    · rw [runOutfield_step env st q hq]
      have hlt := scanPass_lt env st q hq
      exact ih _ _ (by omega) (scanPass_pool_le env q [] st h)

/-- The outfield pool never exceeds 10 players. -/
theorem runOutfield_pool_le (env : Env) (st : OutfieldState) (q : List Pick)
    (h : poolSize st ≤ 10) : poolSize (runOutfield env st q) ≤ 10 :=
  runOutfield_pool_le_aux env q.length q st le_rfl h

/-- Once the pool holds 10 players the whole remaining bench is discarded
with no further promotion: the stage is the identity on the state. -/
theorem runOutfield_pool10 (env : Env) (st : OutfieldState) (q : List Pick)
    (h : poolSize st = 10) : runOutfield env st q = st := by
  cases q with
  | nil => exact runOutfield_nil env st
  | cons pick rest =>
    rw [runOutfield_step env st _ (by simp),
      scanPass_pool10 env st [] _ h (by simp)]
    exact runOutfield_nil env st

/-- Claim C8: throughout the outfield stage the pool (defenders +
midfielders + forwards counted for scoring) never exceeds 10 players, and
once the pool holds 10 the stage discards every remaining bench candidate
and performs no further promotion (the state is returned unchanged). -/
theorem c8_pool_invariant (env : Env) (st : OutfieldState) (q : List Pick)
    (h : poolSize st ≤ 10) :
    poolSize (runOutfield env st q) ≤ 10 ∧
      (poolSize st = 10 → runOutfield env st q = st) :=
  ⟨runOutfield_pool_le env st q h, fun h10 => runOutfield_pool10 env st q h10⟩

/-- Witness for C8 at a concrete pool and queue. -/
theorem c8_pool_invariant_witness :
    poolSize stC3 ≤ 10 ∧
      (poolSize (runOutfield envC3 stC3 benchOutfieldA) ≤ 10 ∧
        (poolSize stC3 = 10 → runOutfield envC3 stC3 benchOutfieldA = stC3)) :=
  ⟨by decide, c8_pool_invariant envC3 stC3 benchOutfieldA (by decide)⟩

/-- Claim C10: a pass of the outfield substitution loop over a non-empty
queue either clears the queue entirely or removes exactly one candidate, so
the queue length strictly decreases on every iteration of the outer loop
(hence the loop terminates). -/
theorem c10_pass_shrinks (env : Env) (st : OutfieldState) (q : List Pick)
    (hq : q ≠ []) :
    ((scanPass env st [] q).2 = [] ∨
      (scanPass env st [] q).2.length + 1 = q.length) ∧
      (scanPass env st [] q).2.length < q.length := by
  have h := scanPass_shrinks env st q [] hq
  simp only [List.length_nil, Nat.zero_add] at h
  exact ⟨h, scanPass_lt env st q hq⟩

/-- Two environments that agree on a candidate's position and combined
result, applied to two states with the same pools, take the same decision;
on a promotion the resulting states again have the same pools. -/
theorem benchStep_agree (env₁ env₂ : Env) (st₁ st₂ : OutfieldState) (n : Nat)
    (isLast : Bool) (pick : Pick)
    (hpos : env₁.pos pick.element = env₂.pos pick.element)
    (hres : env₁.res pick.element = env₂.res pick.element)
    (hp : SamePools st₁ st₂) :
    (benchStep env₁ st₁ n isLast pick = BenchAction.clear ∧
      benchStep env₂ st₂ n isLast pick = BenchAction.clear) ∨
    (benchStep env₁ st₁ n isLast pick = BenchAction.remove ∧
      benchStep env₂ st₂ n isLast pick = BenchAction.remove) ∨
    (benchStep env₁ st₁ n isLast pick = BenchAction.skip ∧
      benchStep env₂ st₂ n isLast pick = BenchAction.skip) ∨
    (∃ s₁ s₂, benchStep env₁ st₁ n isLast pick = BenchAction.promote s₁ ∧
      benchStep env₂ st₂ n isLast pick = BenchAction.promote s₂ ∧
      SamePools s₁ s₂) := by
  obtain ⟨d₁, m₁, f₁, t₁, a₁⟩ := st₁
  obtain ⟨d₂, m₂, f₂, t₂, a₂⟩ := st₂
  obtain ⟨hd, hm, hf⟩ := hp
  simp only at hd hm hf
  subst hd; subst hm; subst hf
  simp only [benchStep, poolSize, shouldBeForceSubbedIn, ← hpos, ← hres]
  split_ifs <;>
    first
      | exact Or.inl ⟨rfl, rfl⟩
      | exact Or.inr (Or.inl ⟨rfl, rfl⟩)
      | exact Or.inr (Or.inr (Or.inl ⟨rfl, rfl⟩))
      | exact Or.inr (Or.inr (Or.inr
          ⟨_, _, rfl, rfl, by exact ⟨rfl, rfl, rfl⟩⟩))

/-- One pass under two environments that agree on every queued candidate,
from two states with the same pools, yields the same queue and states with
the same pools. -/
theorem scanPass_agree (env₁ env₂ : Env) :
    ∀ (q acc : List Pick) (st₁ st₂ : OutfieldState),
      (∀ p ∈ q, env₁.pos p.element = env₂.pos p.element ∧
        env₁.res p.element = env₂.res p.element) →
      SamePools st₁ st₂ →
      SamePools (scanPass env₁ st₁ acc q).1 (scanPass env₂ st₂ acc q).1 ∧
      (scanPass env₁ st₁ acc q).2 = (scanPass env₂ st₂ acc q).2 := by
  intro q
  induction q with
  | nil => intro acc st₁ st₂ _ hp; exact ⟨hp, rfl⟩
  | cons pick rest ih =>
    intro acc st₁ st₂ hq hp
    have hpick := hq pick (List.mem_cons_self pick rest)
    rcases benchStep_agree env₁ env₂ st₁ st₂ (acc.length + 1 + rest.length)
        rest.isEmpty pick hpick.1 hpick.2 hp with
      ⟨h1, h2⟩ | ⟨h1, h2⟩ | ⟨h1, h2⟩ | ⟨s₁, s₂, h1, h2, hs⟩
    · rw [scanPass, scanPass, h1, h2]; exact ⟨hp, rfl⟩
    · rw [scanPass, scanPass, h1, h2]; exact ⟨hp, rfl⟩
    · rw [scanPass, scanPass, h1, h2]
      exact ih (acc ++ [pick]) st₁ st₂
        (fun p hp' => hq p (List.mem_cons_of_mem pick hp')) hp
    · rw [scanPass, scanPass, h1, h2]; exact ⟨hs, rfl⟩

/-- Every pick in the queue a pass leaves behind was already in the scanned
prefix or the input queue. -/
theorem scanPass_queue_sub (env : Env) :
    ∀ (q acc : List Pick) (st : OutfieldState) (p : Pick),
      p ∈ (scanPass env st acc q).2 → p ∈ acc ∨ p ∈ q := by
  intro q
  induction q with
  | nil => intro acc st p hp; exact Or.inl hp
  | cons pick rest ih =>
    intro acc st p hp
    rw [scanPass] at hp
    rcases hb : benchStep env st (acc.length + 1 + rest.length)
        rest.isEmpty pick with _ | _ | st' | _ <;> rw [hb] at hp
    · simp at hp
    · rcases List.mem_append.1 hp with h | h
      · exact Or.inl h
      · exact Or.inr (List.mem_cons_of_mem pick h)
    · rcases List.mem_append.1 hp with h | h
      · exact Or.inl h
      · exact Or.inr (List.mem_cons_of_mem pick h)
    · rcases ih (acc ++ [pick]) st p hp with h | h
      · rcases List.mem_append.1 h with h | h
        · exact Or.inl h
        · simp at h
          exact Or.inr (h ▸ List.mem_cons_self pick rest)
      · exact Or.inr (List.mem_cons_of_mem pick h)

/-- The fuelled outer loop under two environments that agree on every queued
candidate preserves pool equality. -/
theorem runOutfieldGo_agree (env₁ env₂ : Env) :
    ∀ (n : Nat) (q : List Pick) (st₁ st₂ : OutfieldState),
      (∀ p ∈ q, env₁.pos p.element = env₂.pos p.element ∧
        env₁.res p.element = env₂.res p.element) →
      SamePools st₁ st₂ →
      SamePools (runOutfieldGo env₁ n st₁ q) (runOutfieldGo env₂ n st₂ q) := by
  intro n
  induction n with
  | zero => intro q st₁ st₂ _ hp; cases q <;> exact hp
  | succ n ih =>
    intro q st₁ st₂ hq hp
    cases q with
    | nil => exact hp
    | cons pick rest =>
      rw [runOutfieldGo, runOutfieldGo]
      have hsp := scanPass_agree env₁ env₂ (pick :: rest) [] st₁ st₂ hq hp
      rw [← hsp.2]
      refine ih (scanPass env₁ st₁ [] (pick :: rest)).2 _ _ ?_ hsp.1
      intro p hp'
      rcases scanPass_queue_sub env₁ (pick :: rest) [] st₁ p hp' with h | h
      · simp at h
      · exact hq p h

/-- The outer loop under two environments that agree on every queued
candidate preserves pool equality. -/
theorem runOutfield_agree (env₁ env₂ : Env) (q : List Pick)
    (st₁ st₂ : OutfieldState)
    (hq : ∀ p ∈ q, env₁.pos p.element = env₂.pos p.element ∧
      env₁.res p.element = env₂.res p.element)
    (hp : SamePools st₁ st₂) :
    SamePools (runOutfield env₁ st₁ q) (runOutfield env₂ st₂ q) :=
  runOutfieldGo_agree env₁ env₂ q.length q st₁ st₂ hq hp

/-- The starter-loop step only reads the environment at the pick's
element. -/
theorem psp_congr (env₁ env₂ : Env) (st : GwState) (p : Pick)
    (hpos : env₁.pos p.element = env₂.pos p.element)
    (hres : env₁.res p.element = env₂.res p.element) :
    processStartingPick env₁ st p = processStartingPick env₂ st p := by
  simp only [processStartingPick, hpos, hres]

/-- The starter loop only reads the environment at the starting picks'
elements. -/
theorem gwStarterState_congr (env₁ env₂ : Env) :
    ∀ (l : List Pick) (st : GwState),
      (∀ p ∈ l, env₁.pos p.element = env₂.pos p.element ∧
        env₁.res p.element = env₂.res p.element) →
      l.foldl (processStartingPick env₁) st =
        l.foldl (processStartingPick env₂) st := by
  intro l
  induction l with
  | nil => intro st _; rfl
  | cons p rest ih =>
    intro st h
    have hp := h p (List.mem_cons_self p rest)
    rw [List.foldl_cons, List.foldl_cons, psp_congr env₁ env₂ st p hp.1 hp.2]
    exact ih _ (fun x hx => h x (List.mem_cons_of_mem p hx))

/-- The starter-loop step changes the captured captain minutes only on a
captain pick. -/
theorem psp_captain_mins (env : Env) (st : GwState) (p : Pick) :
    (processStartingPick env st p).captain_mins =
      if p.is_captain then (env.res p.element).minutes
      else st.captain_mins := by
  simp only [processStartingPick]
  split_ifs <;> try rfl
  all_goals (cases env.pos p.element <;> rfl)

/-- The starter-loop step changes the captured captain points only on a
captain pick. -/
theorem psp_captain_points (env : Env) (st : GwState) (p : Pick) :
    (processStartingPick env st p).captain_points =
      if p.is_captain then (env.res p.element).total_points
      else st.captain_points := by
  simp only [processStartingPick]
  split_ifs <;> try rfl
  all_goals (cases env.pos p.element <;> rfl)

/-- The starter-loop step changes the captured vice-captain minutes only on
a non-captain, vice-captain pick (the `elif`). -/
theorem psp_vc_mins (env : Env) (st : GwState) (p : Pick) :
    (processStartingPick env st p).vc_mins =
      if p.is_captain then st.vc_mins
      else if p.is_vice_captain then (env.res p.element).minutes
      else st.vc_mins := by
  simp only [processStartingPick]
  split_ifs <;> try rfl
  all_goals (cases env.pos p.element <;> rfl)

/-- The starter-loop step changes the captured vice-captain points only on a
non-captain, vice-captain pick (the `elif`). -/
theorem psp_vc_points (env : Env) (st : GwState) (p : Pick) :
    (processStartingPick env st p).vc_points =
      if p.is_captain then st.vc_points
      else if p.is_vice_captain then (env.res p.element).total_points
      else st.vc_points := by
  simp only [processStartingPick]
  split_ifs <;> try rfl
  all_goals (cases env.pos p.element <;> rfl)

/-- Folding picks none of which is captain leaves the captured captain data
unchanged. -/
theorem foldl_captain_fixed (env : Env) :
    ∀ (l : List Pick) (st : GwState), (∀ p ∈ l, p.is_captain = false) →
      (l.foldl (processStartingPick env) st).captain_mins = st.captain_mins ∧
      (l.foldl (processStartingPick env) st).captain_points =
        st.captain_points := by
  intro l
  induction l with
  | nil => intro st _; exact ⟨rfl, rfl⟩
  | cons p rest ih =>
    intro st h
    rw [List.foldl_cons]
    have hp : p.is_captain = false := h p (List.mem_cons_self p rest)
    have hr := ih (processStartingPick env st p)
      (fun x hx => h x (List.mem_cons_of_mem p hx))
    refine ⟨?_, ?_⟩
    · rw [hr.1, psp_captain_mins, hp]; simp
    · rw [hr.2, psp_captain_points, hp]; simp

/-- Folding picks each of which is either the captain or not the
vice-captain leaves the captured vice-captain data unchanged (the `elif`
skips captain picks). -/
theorem foldl_vc_fixed (env : Env) :
    ∀ (l : List Pick) (st : GwState),
      (∀ p ∈ l, p.is_captain = true ∨ p.is_vice_captain = false) →
      (l.foldl (processStartingPick env) st).vc_mins = st.vc_mins ∧
      (l.foldl (processStartingPick env) st).vc_points = st.vc_points := by
  intro l
  induction l with
  | nil => intro st _; exact ⟨rfl, rfl⟩
  | cons p rest ih =>
    intro st h
    rw [List.foldl_cons]
    have hp := h p (List.mem_cons_self p rest)
    have hr := ih (processStartingPick env st p)
      (fun x hx => h x (List.mem_cons_of_mem p hx))
    rcases hp with hp | hp
    · exact ⟨by rw [hr.1]; simp [psp_vc_mins, hp],
        by rw [hr.2]; simp [psp_vc_points, hp]⟩
    · exact ⟨by rw [hr.1]; simp [psp_vc_mins, hp],
        by rw [hr.2]; simp [psp_vc_points, hp]⟩

/-- After the starter loop, the captured captain data is the combined result
of the (unique trailing) captain pick. -/
theorem foldl_captain_extract (env : Env) (as bs : List Pick) (c : Pick)
    (st : GwState) (hc : c.is_captain = true)
    (hbs : ∀ p ∈ bs, p.is_captain = false) :
    ((as ++ c :: bs).foldl (processStartingPick env) st).captain_mins =
      (env.res c.element).minutes ∧
    ((as ++ c :: bs).foldl (processStartingPick env) st).captain_points =
      (env.res c.element).total_points := by
  rw [List.foldl_append, List.foldl_cons]
  have hr := foldl_captain_fixed env bs
    (processStartingPick env (as.foldl (processStartingPick env) st) c) hbs
  refine ⟨?_, ?_⟩
  · rw [hr.1, psp_captain_mins, hc]; simp
  · rw [hr.2, psp_captain_points, hc]; simp

/-- After the starter loop, the captured vice-captain data is the combined
result of the (unique trailing) non-captain vice-captain pick. -/
theorem foldl_vc_extract (env : Env) (vas vbs : List Pick) (v : Pick)
    (st : GwState) (hvc : v.is_captain = false)
    (hvv : v.is_vice_captain = true)
    (hvbs : ∀ p ∈ vbs, p.is_captain = true ∨ p.is_vice_captain = false) :
    ((vas ++ v :: vbs).foldl (processStartingPick env) st).vc_mins =
      (env.res v.element).minutes ∧
    ((vas ++ v :: vbs).foldl (processStartingPick env) st).vc_points =
      (env.res v.element).total_points := by
  rw [List.foldl_append, List.foldl_cons]
  have hr := foldl_vc_fixed env vbs
    (processStartingPick env (vas.foldl (processStartingPick env) st) v) hvbs
  refine ⟨?_, ?_⟩
  · rw [hr.1, psp_vc_mins, hvc, hvv]; simp
  · rw [hr.2, psp_vc_points, hvc, hvv]; simp

/-- The captain extra added by the evaluator, read off the starter-loop
state. -/
theorem evalGameweek_captain_added (env : Env) (starting : List Pick)
    (gkB : Pick) (q : List Pick) :
    (evalGameweek env starting gkB q).captain_added =
      if (starting.foldl (processStartingPick env) {}).captain_mins ≠ 0
      then (starting.foldl (processStartingPick env) {}).captain_points
      else 0 := rfl

/-- The vice-captain extra added by the evaluator, read off the starter-loop
state. -/
theorem evalGameweek_vc_added (env : Env) (starting : List Pick)
    (gkB : Pick) (q : List Pick) :
    (evalGameweek env starting gkB q).vc_added =
      if (starting.foldl (processStartingPick env) {}).captain_mins = 0 ∧
          (starting.foldl (processStartingPick env) {}).vc_mins ≠ 0
      then (starting.foldl (processStartingPick env) {}).vc_points
      else 0 := rfl

/-- Claim C9: two evaluation runs that differ only in the backup
goalkeeper's combined result — the environments share all positions and
agree on the combined result of every player id other than the backup
goalkeeper's, who appears neither among the starting picks nor in the
outfield bench queue — produce identical outfield pools, so the outfield
substitution outcome (which players are promoted and which discarded) does
not depend on the goalkeeper stage's decision. -/
theorem c9_gk_independence (env₁ env₂ : Env) (starting : List Pick)
    (gkB : Pick) (q : List Pick)
    (hpos : ∀ id, env₁.pos id = env₂.pos id)
    (hres : ∀ id, id ≠ gkB.element → env₁.res id = env₂.res id)
    (hstart : ∀ p ∈ starting, p.element ≠ gkB.element)
    (hq : ∀ p ∈ q, p.element ≠ gkB.element) :
    (evalGameweek env₁ starting gkB q).defs =
      (evalGameweek env₂ starting gkB q).defs ∧
    (evalGameweek env₁ starting gkB q).mids =
      (evalGameweek env₂ starting gkB q).mids ∧
    (evalGameweek env₁ starting gkB q).fwds =
      (evalGameweek env₂ starting gkB q).fwds := by
  have hst : gwStarterState env₁ starting = gwStarterState env₂ starting :=
    gwStarterState_congr env₁ env₂ starting {}
      (fun p hp => ⟨hpos p.element, hres p.element (hstart p hp)⟩)
  have hinit : SamePools (gwOutfieldInit env₁ starting gkB)
      (gwOutfieldInit env₂ starting gkB) := by
    refine ⟨?_, ?_, ?_⟩ <;> simp only [gwOutfieldInit] <;> rw [hst]
  have hpools := runOutfield_agree env₁ env₂ q
    (gwOutfieldInit env₁ starting gkB) (gwOutfieldInit env₂ starting gkB)
    (fun p hp => ⟨hpos p.element, hres p.element (hq p hp)⟩) hinit
  exact ⟨hpools.1, hpools.2.1, hpools.2.2⟩

/-- Witness for C9: the concrete runs `envC9a` and `envC9b` differ exactly
in the backup goalkeeper `b1`'s combined result (0 minutes versus 90
minutes, 9 points) — the goalkeeper stage promotes `b1` in the second run
only — and the final outfield pools coincide. -/
theorem c9_gk_independence_witness :
    (evalGameweek envC9a startersA (mkPick "b1" false false)
        benchOutfieldA).defs =
      (evalGameweek envC9b startersA (mkPick "b1" false false)
        benchOutfieldA).defs ∧
    (evalGameweek envC9a startersA (mkPick "b1" false false)
        benchOutfieldA).mids =
      (evalGameweek envC9b startersA (mkPick "b1" false false)
        benchOutfieldA).mids ∧
    (evalGameweek envC9a startersA (mkPick "b1" false false)
        benchOutfieldA).fwds =
      (evalGameweek envC9b startersA (mkPick "b1" false false)
        benchOutfieldA).fwds :=
  c9_gk_independence envC9a envC9b startersA (mkPick "b1" false false)
    benchOutfieldA (fun _ => rfl)
    (fun id hid => by
      have hid2 : id ≠ "b1" := hid
      simp only [envC9b]
      rw [if_neg hid2])
    (by decide) (by decide)

/-- Claim C6 counterexample: the vice-captaincy sits on the outfield bench
pick `b2`, who played 90 minutes for 5 points, while the captain `s2` has 0
combined minutes — yet no vice-captain extra is applied (`vc_added = 0`),
because the loop that captures vice-captain minutes only ranges over the 11
starting picks (`analyzers.py` lines 795-806). The claim says the
vice-captain "may be any of the 15 picks, starter or bench" and would have
its extra applied here. -/
theorem c6_bench_vc_counterexample :
    (mkPick "b2" false true).is_vice_captain = true ∧
    (envC6.res "b2").minutes ≠ 0 ∧
    (envC6.res "b2").total_points = 5 ∧
    (envC6.res "s2").minutes = 0 ∧
    (evalGameweek envC6 startersC6 (mkPick "b1" false false)
      benchOutfieldC6).captain_added = 0 ∧
    (evalGameweek envC6 startersC6 (mkPick "b1" false false)
      benchOutfieldC6).vc_added = 0 := by
  decide

/-- Claim C6 (amended): with a unique captain among the starting picks, the
captain extra is applied iff the captain's combined minutes are non-zero; if
the captain did not play and the vice-captain is among the 11 STARTING picks
and played, the vice-captain extra is applied (and never together with the
captain's); if no starting pick carries the vice-captaincy — in particular
when the vice-captain sits on the bench — no vice-captain extra is ever
applied. -/
theorem c6_captaincy (env : Env) (as bs : List Pick) (c gkB : Pick)
    (q : List Pick) (hc : c.is_captain = true)
    (hbs : ∀ p ∈ bs, p.is_captain = false) :
    ((evalGameweek env (as ++ c :: bs) gkB q).captain_added =
        if (env.res c.element).minutes ≠ 0
        then (env.res c.element).total_points else 0) ∧
    (∀ vas vbs v, as ++ c :: bs = vas ++ v :: vbs → v.is_captain = false →
        v.is_vice_captain = true →
        (∀ p ∈ vbs, p.is_captain = true ∨ p.is_vice_captain = false) →
        (evalGameweek env (as ++ c :: bs) gkB q).vc_added =
          if (env.res c.element).minutes = 0 ∧ (env.res v.element).minutes ≠ 0
          then (env.res v.element).total_points else 0) ∧
    ((∀ p ∈ as ++ c :: bs, p.is_captain = true ∨ p.is_vice_captain = false) →
        (evalGameweek env (as ++ c :: bs) gkB q).vc_added = 0) := by
  have hcap := foldl_captain_extract env as bs c ({} : GwState) hc hbs
  refine ⟨?_, ?_, ?_⟩
  · rw [evalGameweek_captain_added, hcap.1, hcap.2]
  · intro vas vbs v heq hvc hvv hvbs
    have hvcx := foldl_vc_extract env vas vbs v ({} : GwState) hvc hvv hvbs
    have hcap2 := hcap
    rw [heq] at hcap2
    rw [evalGameweek_vc_added, heq, hcap2.1, hvcx.1, hvcx.2]
  · intro hall
    have hv0 := foldl_vc_fixed env (as ++ c :: bs) ({} : GwState) hall
    rw [evalGameweek_vc_added, hv0.1]
    simp

/-- Witness for the amended C6 on the concrete squad `startersA`
(decomposed as `c6as ++ c6c :: c6bs`): captain `s2` played (extra applied),
vice-captain `s3` is the starter right after the captain. -/
theorem c6_captaincy_witness :
    ((evalGameweek envC1 (c6as ++ c6c :: c6bs) (mkPick "b1" false false)
        benchOutfieldA).captain_added =
      if (envC1.res c6c.element).minutes ≠ 0
      then (envC1.res c6c.element).total_points else 0) ∧
    ((evalGameweek envC1 (c6as ++ c6c :: c6bs) (mkPick "b1" false false)
        benchOutfieldA).vc_added =
      if (envC1.res c6c.element).minutes = 0 ∧
          (envC1.res (mkPick "s3" false true).element).minutes ≠ 0
      then (envC1.res (mkPick "s3" false true).element).total_points
      else 0) :=
  ⟨(c6_captaincy envC1 c6as c6bs c6c (mkPick "b1" false false) benchOutfieldA
      (by decide) (by decide)).1,
   (c6_captaincy envC1 c6as c6bs c6c (mkPick "b1" false false) benchOutfieldA
      (by decide) (by decide)).2.1
     [mkPick "s1" false false, mkPick "s2" true false]
     [mkPick "s4" false false, mkPick "s5" false false,
      mkPick "s6" false false, mkPick "s7" false false,
      mkPick "s8" false false, mkPick "s9" false false,
      mkPick "s10" false false, mkPick "s11" false false]
     (mkPick "s3" false true) (by decide) (by decide) (by decide)
     (by decide)⟩

/-- Claim C7 counterexample: the captain pick `s2` carries declared
multiplier 3 (triple captain) and played for 4 combined points, but the
extra points added are 4, not `(3 - 1) * 4 = 8`: the evaluator never reads
the pick's multiplier (nor the chip history), always adding exactly one
extra share of the captain's points. -/
theorem c7_multiplier_counterexample :
    c7cap.is_captain = true ∧
    c7cap ∈ startersC7 ∧
    c7cap.multiplier = 3 ∧
    (envC7.res c7cap.element).minutes ≠ 0 ∧
    (envC7.res c7cap.element).total_points = 4 ∧
    (evalGameweek envC7 startersC7 (mkPick "b1" false false)
      benchOutfieldA).captain_added = 4 ∧
    (evalGameweek envC7 startersC7 (mkPick "b1" false false)
      benchOutfieldA).captain_added ≠
      (c7cap.multiplier - 1) * (envC7.res c7cap.element).total_points := by
  decide

/-- Claim C7 (amended): when the captain played, the extra points added
equal exactly the captain's combined total points — once, regardless of the
pick's declared multiplier (the multiplier field and the triple-captain chip
are never consulted), i.e. the effective multiplier is always 2. -/
theorem c7_extra_ignores_multiplier (env : Env) (as bs : List Pick)
    (c gkB : Pick) (q : List Pick) (hc : c.is_captain = true)
    (hbs : ∀ p ∈ bs, p.is_captain = false)
    (hplayed : (env.res c.element).minutes ≠ 0) :
    ∀ m : Int,
      (evalGameweek env (as ++ { c with multiplier := m } :: bs) gkB
        q).captain_added = (env.res c.element).total_points := by
  intro m
  have hcap := foldl_captain_extract env as bs ({ c with multiplier := m })
    ({} : GwState) hc hbs
  rw [evalGameweek_captain_added, hcap.1, hcap.2]
  simp [hplayed]

/-- Witness for the amended C7: captain `s2` (decomposition of
`startersC7`), declared multiplier 3, played for 4 points: the extra added
is the captain's 4 points. -/
theorem c7_extra_ignores_multiplier_witness :
    (evalGameweek envC7
      (c6as ++ ({ c6c with multiplier := (3 : Int) }) :: c6bs)
      (mkPick "b1" false false) benchOutfieldA).captain_added =
      (envC7.res c6c.element).total_points :=
  c7_extra_ignores_multiplier envC7 c6as c6bs c6c (mkPick "b1" false false)
    benchOutfieldA (by decide) (by decide) (by decide) 3

/-- Claim C3 counterexample: a bench forward (`Position.ATTACKER`) `f1` who
played 90 minutes, with the pool's forward count below `MIN_FWDS` (and even
`forced` true), is NOT promoted — the candidate is merely skipped — because
the third branch of the position check re-tests `Position.MIDFIELDER`
(`analyzers.py` line 900) and is unreachable. The claim's eligibility rule
for the forward position holds at this input, yet no promotion happens. -/
theorem c3_forward_counterexample :
    envC3.pos "f1" = Position.ATTACKER ∧
    (envC3.res "f1").minutes ≠ 0 ∧
    stC3.fwds.length < MIN_FWDS ∧
    shouldBeForceSubbedIn stC3 3 = true ∧
    benchStep envC3 stC3 3 false (mkPick "f1" false false) =
      BenchAction.skip := by
  decide

/-- Claim C3 (amended): for a bench candidate who played and a non-full
pool, promotion at the current iteration is equivalent to the position
eligibility rule for defenders and for midfielders; a forward
(`Position.ATTACKER`) candidate is never promoted, not even via the forced
path, because the forward branch repeats the midfielder test and is dead
code. -/
theorem c3_positional_eligibility (env : Env) (st : OutfieldState) (qn : Nat)
    (isLast : Bool) (pick : Pick) (hpool : poolSize st ≠ 10)
    (hmin : (env.res pick.element).minutes ≠ 0) :
    (env.pos pick.element = Position.DEFENDER →
      ((∃ st', benchStep env st qn isLast pick = BenchAction.promote st') ↔
        (st.defs.length < MIN_DEFS ∨
          (MIN_MIDS ≤ st.mids.length ∧ MIN_FWDS ≤ st.fwds.length) ∨
          shouldBeForceSubbedIn st qn = true))) ∧
    (env.pos pick.element = Position.MIDFIELDER →
      ((∃ st', benchStep env st qn isLast pick = BenchAction.promote st') ↔
        (st.mids.length < MIN_MIDS ∨
          (MIN_DEFS ≤ st.defs.length ∧ MIN_FWDS ≤ st.fwds.length) ∨
          shouldBeForceSubbedIn st qn = true))) ∧
    (env.pos pick.element = Position.ATTACKER →
      ∀ st', benchStep env st qn isLast pick ≠ BenchAction.promote st') := by
  refine ⟨fun hpos => ?_, fun hpos => ?_, fun hpos st' => ?_⟩ <;>
    simp only [benchStep, if_neg hpool, if_neg hmin, hpos] <;>
    split_ifs <;> simp_all

/-- Witness for the amended C3 at a concrete input: a played bench defender
`d9` with the pool's defender count below `MIN_DEFS`. -/
theorem c3_positional_eligibility_witness :
    poolSize stC3w ≠ 10 ∧ (envC3w.res "d9").minutes ≠ 0 ∧
    ((envC3w.pos "d9" = Position.DEFENDER →
      ((∃ st', benchStep envC3w stC3w 3 false (mkPick "d9" false false) =
          BenchAction.promote st') ↔
        (stC3w.defs.length < MIN_DEFS ∨
          (MIN_MIDS ≤ stC3w.mids.length ∧ MIN_FWDS ≤ stC3w.fwds.length) ∨
          shouldBeForceSubbedIn stC3w 3 = true))) ∧
    (envC3w.pos "d9" = Position.MIDFIELDER →
      ((∃ st', benchStep envC3w stC3w 3 false (mkPick "d9" false false) =
          BenchAction.promote st') ↔
        (stC3w.mids.length < MIN_MIDS ∨
          (MIN_DEFS ≤ stC3w.defs.length ∧ MIN_FWDS ≤ stC3w.fwds.length) ∨
          shouldBeForceSubbedIn stC3w 3 = true))) ∧
    (envC3w.pos "d9" = Position.ATTACKER →
      ∀ st', benchStep envC3w stC3w 3 false (mkPick "d9" false false) ≠
        BenchAction.promote st')) :=
  ⟨by decide, by decide,
    c3_positional_eligibility envC3w stC3w 3 false (mkPick "d9" false false)
      (by decide) (by decide)⟩

/-- Claim C4 counterexample: with a pool of 5 players and 3 remaining bench
candidates the `forced` flag is true (5 + 3 ≤ 10), although 3 is not
exactly the number of open slots (10 - 5 = 5): the code uses `<=`, not
equality (`analyzers.py` line 865). -/
theorem c4_forced_counterexample :
    shouldBeForceSubbedIn stC3 3 = true ∧ ¬(3 = 10 - poolSize stC3) := by
  decide

/-- Claim C4 (amended): the `forced` flag is true iff the number of
remaining bench candidates is AT MOST the number of remaining open outfield
slots (10 minus the current pool size) — every remaining candidate fits —
not exactly equal to it. -/
theorem c4_forced_at_most (st : OutfieldState) (qn : Nat)
    (h : poolSize st ≤ 10) :
    shouldBeForceSubbedIn st qn = true ↔ qn ≤ 10 - poolSize st := by
  simp only [shouldBeForceSubbedIn, decide_eq_true_eq]
  omega

/-- Witness for the amended C4 at a concrete pool and queue length. -/
theorem c4_forced_at_most_witness :
    poolSize stC3 ≤ 10 ∧
      (shouldBeForceSubbedIn stC3 4 = true ↔ 4 ≤ 10 - poolSize stC3) :=
  ⟨by decide, c4_forced_at_most stC3 4 (by decide)⟩

/-- Claim C1, evaluated at a failing input: starting goalkeeper `s1` has 0
combined minutes, the ten outfield starters each played for 1 point, the
captain `s2` played (extra 1), and the backup goalkeeper `b1` played 45
minutes for 5 points. The backup is promoted and its 5 points are added to
the running auto-sub counter, but the gameweek total is 11 — the sum of the
starters' 10 points and the captain extra — instead of the 16 the claim
requires: the goalkeeper stage never adds the promoted backup's points to
`total_gw_points` (`analyzers.py` lines 842-847), unlike the outfield stage
(lines 921-922). -/
theorem c1_gk_autosub_missing_from_total :
    (envC1.res "b1").minutes ≠ 0 ∧
    (envC1.res "b1").total_points = 5 ∧
    (evalGameweek envC1 startersA (mkPick "b1" false false)
      benchOutfieldA).gk = some "b1" ∧
    (evalGameweek envC1 startersA (mkPick "b1" false false)
      benchOutfieldA).auto_sub_added = 5 ∧
    (evalGameweek envC1 startersA (mkPick "b1" false false)
      benchOutfieldA).total_gw_points = 11 := by
  decide

/-- Claim C2, evaluated at a failing input: with the backup goalkeeper `b1`
promoted for 7 points, the sum of combined total points over the final
scoring set (23) plus the captain/vice-captain extra (2) does not equal the
reported gameweek total (18): conservation fails by exactly the promoted
backup goalkeeper's points, which the goalkeeper stage leaves out of the
gameweek total. -/
theorem c2_conservation_violated :
    scoringSum envC2
        (evalGameweek envC2 startersA (mkPick "b1" false false)
          benchOutfieldA) +
      (evalGameweek envC2 startersA (mkPick "b1" false false)
        benchOutfieldA).captain_added +
      (evalGameweek envC2 startersA (mkPick "b1" false false)
        benchOutfieldA).vc_added ≠
    (evalGameweek envC2 startersA (mkPick "b1" false false)
      benchOutfieldA).total_gw_points := by
  decide

/-- Claim C5 counterexample: for a player id absent from the player store
the aggregator does not yield the zero-valued combined result — the dict
access `self.players[str(player_id)]` fails (Python `KeyError`, modelled as
`none`). -/
theorem c5_unknown_player_counterexample :
    get_combined_gameweek_result_for_player emptyPlayerStore "1" 1 = none ∧
      get_combined_gameweek_result_for_player emptyPlayerStore "1" 1 ≠
        some {} := by
  constructor <;> decide

/-- Claim C5 (amended): for a player id present in the store the aggregator
never errors — it yields some combined result for every gameweek — and a
gameweek with no fixture records for the player yields the zero-valued
(all statistics 0, minutes 0) combined result. -/
theorem c5_known_player_total (players : PlayerDict) (player_id : String)
    (gw : Int) (p : Player) (h : players player_id = some p) :
    (∃ c, get_combined_gameweek_result_for_player players player_id gw =
      some c) ∧
    ((p.history.filter fun x => x.round == gw) = [] →
      get_combined_gameweek_result_for_player players player_id gw =
        some {}) := by
  constructor
  · exact ⟨(p.history.filter fun x => x.round == gw).foldl addResult {}, by
      simp [get_combined_gameweek_result_for_player,
        get_player_gameweek_results, h]⟩
  · intro hf
    simp [get_combined_gameweek_result_for_player,
      get_player_gameweek_results, h, hf]

/-- Witness for the amended C5 at a concrete store: player `p1` is present
with an empty history, so gameweek 7 has no records and the zero result is
returned. -/
theorem c5_known_player_total_witness :
    (∃ c, get_combined_gameweek_result_for_player storeC5 "p1" 7 = some c) ∧
    ((Player.history
        { id := "p1", element_type := Position.GOALKEEPER,
          history := [] }).filter (fun x => x.round == 7) = [] →
      get_combined_gameweek_result_for_player storeC5 "p1" 7 = some {}) :=
  c5_known_player_total storeC5 "p1" 7
    { id := "p1", element_type := Position.GOALKEEPER, history := [] }
    (by decide)

/-- Witness for C10 at a concrete state and queue. -/
theorem c10_pass_shrinks_witness :
    benchOutfieldA ≠ [] ∧
      (((scanPass envC3 stC3 [] benchOutfieldA).2 = [] ∨
        (scanPass envC3 stC3 [] benchOutfieldA).2.length + 1 =
          benchOutfieldA.length) ∧
        (scanPass envC3 stC3 [] benchOutfieldA).2.length <
          benchOutfieldA.length) :=
  ⟨by decide, c10_pass_shrinks envC3 stC3 benchOutfieldA (by decide)⟩

end FplStats
